import Mathlib

/-!
Verification of the BioAI Explorer application (src/app.py) against its
natural-language specification.

The Python source is shallowly embedded: the credential store (a JSON dict
from email to bcrypt hash), the session flags kept in Streamlit session
state, the UniProt annotation fetch with bounded retry and exponential
backoff, and the BLAST submit/poll/parse pipeline all become pure Lean
functions.  External effects are made explicit: HTTP responses are passed
in as scripted values, and the functions additionally return the number of
HTTP calls made and the list of sleep durations, so that claims about call
counts and backoff can be stated.
-/

set_option autoImplicit false
set_option maxRecDepth 4000

namespace BioAI

/-! ## Credential store (src/app.py, signup / login)

The bcrypt library is external to the repository.  It is modelled
abstractly: a hash value records the salt and the hashed password, and
`bcrypt_checkpw` succeeds exactly when the supplied password equals the
one that was hashed, which is the contract of
`bcrypt.checkpw(p, bcrypt.hashpw(q, salt))`. -/

/-- Abstract model of a bcrypt hash: the salt together with the password it
was computed from.  `users.json` stores these values keyed by email. -/
structure BHash where
  salt : String
  pw : String
deriving DecidableEq, Repr

/-- Model of `bcrypt.hashpw(password.encode(), bcrypt.gensalt())`; the salt
drawn by `gensalt` is passed in explicitly. -/
def bcrypt_hashpw (pw salt : String) : BHash := ⟨salt, pw⟩

/-- Model of `bcrypt.checkpw(password.encode(), stored_hash)`: true exactly
when the candidate password is the one that was hashed. -/
def bcrypt_checkpw (pw : String) (h : BHash) : Bool := pw == h.pw

/-- The credential store: the contents of `users.json`, a Python dict from
email to hash, modelled as an association list with unique keys. -/
abbrev Store := List (String × BHash)

/-- Membership test `email in users` on the Python dict. -/
def containsKey (users : Store) (k : String) : Bool :=
  users.any (fun p => p.1 == k)

/-- Lookup `users[email]` on the Python dict (first matching key). -/
def lookupKey : Store → String → Option BHash
  | [], _ => none
  | (k, v) :: rest, key => if k == key then some v else lookupKey rest key

/-- Assignment `users[email] = h` on the Python dict: replace the value if
the key is present, otherwise append a new entry. -/
def dictInsert (users : Store) (k : String) (v : BHash) : Store :=
  if containsKey users k then
    users.map (fun p => if p.1 == k then (k, v) else p)
  else
    users ++ [(k, v)]

/-- Number of records in the store carrying a given identifier. -/
def countKey (users : Store) (k : String) : Nat :=
  (users.filter (fun p => p.1 == k)).length

/-- Embedding of `signup(email, password)` (src/app.py lines 145-151).
Returns the `(success, message)` pair together with the store after the
call (`save_users` persists exactly this store).  The salt drawn by
`bcrypt.gensalt()` is an explicit argument. -/
def signup (users : Store) (email pw salt : String) : (Bool × String) × Store :=
  if containsKey users email then
    ((false, "User already exists!"), users)
  else
    ((true, "Account created successfully!"), dictInsert users email (bcrypt_hashpw pw salt))

/-- Embedding of `login(email, password)` (src/app.py lines 156-162). -/
def login (users : Store) (email pw : String) : Bool × String :=
  match lookupKey users email with
  | none => (false, "No account found!")
  | some h =>
    if bcrypt_checkpw pw h then (true, "Login successful!")
    else (false, "Invalid password!")

/-! ### Store lemmas -/

theorem lookupKey_append_fresh (users : Store) (email : String) (h : BHash)
    (hfresh : containsKey users email = false) :
    lookupKey (users ++ [(email, h)]) email = some h := by
  induction users with
  | nil => simp [lookupKey]
  | cons p rest ih =>
    simp only [containsKey, List.any_cons, Bool.or_eq_false_iff] at hfresh
    simpa [lookupKey, hfresh.1] using ih hfresh.2

theorem countKey_append_fresh (users : Store) (email : String) (h : BHash)
    (hfresh : containsKey users email = false) :
    countKey (users ++ [(email, h)]) email = 1 := by
  induction users with
  | nil => simp [countKey]
  | cons p rest ih =>
    simp only [containsKey, List.any_cons, Bool.or_eq_false_iff] at hfresh
    simpa [countKey, hfresh.1] using ih hfresh.2

theorem containsKey_append_self (users : Store) (email : String) (h : BHash) :
    containsKey (users ++ [(email, h)]) email = true := by
  simp [containsKey]

theorem signup_fresh (users : Store) (email pw salt : String)
    (hfresh : containsKey users email = false) :
    signup users email pw salt =
      ((true, "Account created successfully!"), users ++ [(email, bcrypt_hashpw pw salt)]) := by
  simp [signup, dictInsert, hfresh]

/-! ### C1 -/

/-- C1: registering the same identifier twice (starting from a store not
yet containing it) has the first `signup` succeed and the second fail with
the already-exists message; after both calls the store holds exactly one
record for the identifier, namely the hash written by the first call. -/
theorem signup_twice_spec (users : Store) (email pw1 pw2 salt1 salt2 : String)
    (hfresh : containsKey users email = false) :
    (signup users email pw1 salt1).1.1 = true ∧
    (signup (signup users email pw1 salt1).2 email pw2 salt2).1 =
      (false, "User already exists!") ∧
    (signup (signup users email pw1 salt1).2 email pw2 salt2).2 =
      (signup users email pw1 salt1).2 ∧
    countKey (signup (signup users email pw1 salt1).2 email pw2 salt2).2 email = 1 ∧
    lookupKey (signup (signup users email pw1 salt1).2 email pw2 salt2).2 email =
      some (bcrypt_hashpw pw1 salt1) := by
  rw [signup_fresh users email pw1 salt1 hfresh]
  have hc := containsKey_append_self users email (bcrypt_hashpw pw1 salt1)
  refine ⟨rfl, ?_, ?_, ?_, ?_⟩
  · simp [signup, hc]
  · simp [signup, hc]
  · simp only [signup, hc, if_true]
    exact countKey_append_fresh users email _ hfresh
  · simp only [signup, hc, if_true]
    exact lookupKey_append_fresh users email _ hfresh

/-- Witness for C1 at a concrete store and credentials. -/
theorem signup_twice_spec_witness :
    (signup [] "a@b.c" "pw1" "s1").1.1 = true ∧
    (signup (signup [] "a@b.c" "pw1" "s1").2 "a@b.c" "pw2" "s2").1 =
      (false, "User already exists!") ∧
    (signup (signup [] "a@b.c" "pw1" "s1").2 "a@b.c" "pw2" "s2").2 =
      (signup [] "a@b.c" "pw1" "s1").2 ∧
    countKey (signup (signup [] "a@b.c" "pw1" "s1").2 "a@b.c" "pw2" "s2").2 "a@b.c" = 1 ∧
    lookupKey (signup (signup [] "a@b.c" "pw1" "s1").2 "a@b.c" "pw2" "s2").2 "a@b.c" =
      some (bcrypt_hashpw "pw1" "s1") :=
  signup_twice_spec [] "a@b.c" "pw1" "pw2" "s1" "s2" rfl

/-! ### C2 -/

/-- C2: for a store holding the registration-time hash of `pw` under
`email`, `login` succeeds with `pw`, fails with the invalid-password
message for any other password, and fails with the no-account message for
an identifier that is absent from the store. -/
theorem login_spec (users : Store) (email pw pw2 other salt : String)
    (hreg : lookupKey users email = some (bcrypt_hashpw pw salt))
    (hne : pw2 ≠ pw)
    (habs : lookupKey users other = none) :
    login users email pw = (true, "Login successful!") ∧
    login users email pw2 = (false, "Invalid password!") ∧
    login users other pw = (false, "No account found!") := by
  refine ⟨?_, ?_, ?_⟩
  · simp [login, hreg, bcrypt_checkpw, bcrypt_hashpw]
  · simp [login, hreg, bcrypt_checkpw, bcrypt_hashpw, hne]
  · simp [login, habs]

/-- Witness for C2 at a concrete one-user store. -/
theorem login_spec_witness :
    login [("a@b.c", bcrypt_hashpw "pw1" "s1")] "a@b.c" "pw1" = (true, "Login successful!") ∧
    login [("a@b.c", bcrypt_hashpw "pw1" "s1")] "a@b.c" "bad" = (false, "Invalid password!") ∧
    login [("a@b.c", bcrypt_hashpw "pw1" "s1")] "x@y.z" "pw1" = (false, "No account found!") :=
  login_spec [("a@b.c", bcrypt_hashpw "pw1" "s1")] "a@b.c" "pw1" "bad" "x@y.z" "s1"
    rfl (by decide) rfl

/-! ## Session gate (src/app.py lines 167-169, 182-183, 341-342) -/

/-- The authentication flags kept in `st.session_state`: `logged_in` and
`user`. -/
structure Session where
  logged_in : Bool
  user : Option String
deriving DecidableEq, Repr

/-- Initial session state (lines 167-169): not logged in, no user. -/
def initSession : Session := ⟨false, none⟩

/-- Successful login (lines 182-183): sets `logged_in = True` and
`user = email`. -/
def onLoginSuccess (_s : Session) (email : String) : Session := ⟨true, some email⟩

/-- Logout (lines 341-342): resets `logged_in = False` and `user = None`. -/
def onLogout (_s : Session) : Session := ⟨false, none⟩

/-- The session invariant: the current user is set exactly when the session
is authenticated. -/
def sessionInv (s : Session) : Prop := s.user.isSome = s.logged_in

/-! ### C3 -/

/-- C3: the invariant "currentUser is set iff authenticated" holds in the
initial session state and is preserved by both session operations, which
update the two fields together. -/
theorem session_invariant :
    sessionInv initSession ∧
    (∀ (s : Session) (email : String), sessionInv (onLoginSuccess s email)) ∧
    (∀ s : Session, sessionInv (onLogout s)) :=
  ⟨rfl, fun _ _ => rfl, fun _ => rfl⟩

/-! ## JSON values

Minimal model of the JSON documents exchanged with the remote services. -/

/-- JSON value, as produced by `resp.json()`.  Numeric scores are kept as
uninterpreted `Int`/`String` payloads; the claims never compute with
them. -/
inductive J where
  | null
  | bool (b : Bool)
  | num (n : Int)
  | str (s : String)
  | arr (elems : List J)
  | obj (fields : List (String × J))

/-! ## Annotation client (src/app.py lines 233-256, fetch_uniprot_json)

The HTTP layer is made explicit: attempt `i` (numbered from 1, as in the
Python `for attempt in range(1, retries + 1)`) receives the scripted
response `responses i`.  The result carries the Python return value /
raised exception, the number of HTTP calls performed, and the list of
sleep durations passed to `time.sleep`. -/

/-- Outcome of one `session.get` + `raise_for_status` + `.json()` round:
a 2xx response with a parsed body, a timeout, an HTTP error status, or
another transient request failure. -/
inductive HttpResp where
  | success (body : J)
  | timeout
  | httpError (status : Nat)
  | reqError

/-- Errors propagated out of `fetch_uniprot_json` by a bare `raise`. -/
inductive FetchErr where
  | timeout
  | http (status : Nat)
  | reqFail
deriving DecidableEq, Repr

/-- Loop body of `fetch_uniprot_json`.  `remaining` counts the iterations
the Python `for` loop has left (so `attempt == retries` exactly when
`remaining = 1`); when it reaches 0 the loop falls off the end and the
function returns `None`.  The components of the result are the returned or
raised value, the number of HTTP calls made, and the sleeps performed. -/
def fetchGo (responses : Nat → HttpResp) : Nat → Nat → Nat → Nat → List Nat →
    Except FetchErr (Option J) × Nat × List Nat
  | _, 0, _, calls, sleeps => (.ok none, calls, sleeps)
  | attempt, r + 1, backoff, calls, sleeps =>
    match responses attempt with
    | .success b => (.ok (some b), calls + 1, sleeps)
    | .timeout =>
      if r = 0 then (.error .timeout, calls + 1, sleeps)
      else fetchGo responses (attempt + 1) r (backoff * 2) (calls + 1) (sleeps ++ [backoff])
    | .httpError s =>
      if s = 404 then (.ok none, calls + 1, sleeps)
      else (.error (.http s), calls + 1, sleeps)
    | .reqError =>
      if r = 0 then (.error .reqFail, calls + 1, sleeps)
      else fetchGo responses (attempt + 1) r (backoff * 2) (calls + 1) (sleeps ++ [backoff])

/-- Embedding of `fetch_uniprot_json(protein_id, retries, timeout)`: start
at attempt 1 with `backoff = 1`, no calls made and no sleeps yet. -/
def fetch_uniprot_json (responses : Nat → HttpResp) (retries : Nat) :
    Except FetchErr (Option J) × Nat × List Nat :=
  fetchGo responses 1 retries 1 0 []

/-- A UniProt service that answers every request with HTTP 404. -/
def always404 : Nat → HttpResp := fun _ => .httpError 404

/-- A UniProt service on which every request times out. -/
def alwaysTimeout : Nat → HttpResp := fun _ => .timeout

theorem fetchGo_timeout_step (responses : Nat → HttpResp)
    (attempt r backoff calls : Nat) (sleeps : List Nat)
    (ht : responses attempt = HttpResp.timeout) :
    fetchGo responses attempt (r + 2) backoff calls sleeps =
      fetchGo responses (attempt + 1) (r + 1) (backoff * 2) (calls + 1) (sleeps ++ [backoff]) := by
  simp [fetchGo, ht]

theorem fetchGo_timeout_last (responses : Nat → HttpResp)
    (attempt backoff calls : Nat) (sleeps : List Nat)
    (ht : responses attempt = HttpResp.timeout) :
    fetchGo responses attempt 1 backoff calls sleeps = (.error .timeout, calls + 1, sleeps) := by
  simp [fetchGo, ht]

theorem fetchGo_success_step (responses : Nat → HttpResp)
    (attempt r backoff calls : Nat) (sleeps : List Nat) (b : J)
    (hs : responses attempt = HttpResp.success b) :
    fetchGo responses attempt (r + 1) backoff calls sleeps =
      (.ok (some b), calls + 1, sleeps) := by
  simp [fetchGo, hs]

/-! ### C4 -/

/-- C4 counterexample: with `retries = 0` the Python loop body never runs,
so even against a service answering 404 the function makes zero HTTP calls
(and returns `None` without contacting the service) — not exactly one call
"regardless of the maxRetries value". -/
theorem fetch_404_zero_retries_no_call :
    fetch_uniprot_json always404 0 = (.ok none, 0, []) ∧
    ¬ (fetch_uniprot_json always404 0).2.1 = 1 := by
  exact ⟨rfl, by decide⟩

/-- C4 (amended): for every `retries ≥ 1`, when the first request is
answered with HTTP 404 the fetch returns the missing-record result `None`
immediately: exactly one HTTP call and no sleeps, whatever the later
responses would have been. -/
theorem fetch_404_immediate (responses : Nat → HttpResp) (retries : Nat)
    (hr : 1 ≤ retries) (h404 : responses 1 = HttpResp.httpError 404) :
    fetch_uniprot_json responses retries = (.ok none, 1, []) := by
  obtain ⟨r, rfl⟩ : ∃ r, retries = r + 1 := ⟨retries - 1, by omega⟩
  simp [fetch_uniprot_json, fetchGo, h404]

/-- Witness for the amended C4: the default `retries = 3` against an
always-404 service makes exactly one call. -/
theorem fetch_404_immediate_witness :
    fetch_uniprot_json always404 3 = (.ok none, 1, []) :=
  fetch_404_immediate always404 3 (by decide) rfl

/-! ### C5 -/

/-- C5: with `retries = 3`, if every attempt times out then exactly 3 HTTP
calls are made with sleeps of 1 and then 2 seconds between them and the
last timeout error is re-raised; if the first attempt times out and the
second succeeds, the parsed body is returned after exactly 2 calls (with a
single 1 second sleep). -/
theorem fetch_retry_backoff (r1 r2 : Nat → HttpResp) (b : J)
    (h1 : ∀ i, r1 i = HttpResp.timeout)
    (h2 : r2 1 = HttpResp.timeout) (h3 : r2 2 = HttpResp.success b) :
    fetch_uniprot_json r1 3 = (.error .timeout, 3, [1, 2]) ∧
    fetch_uniprot_json r2 3 = (.ok (some b), 2, [1]) := by
  constructor
  · have s1 : fetch_uniprot_json r1 3 = fetchGo r1 2 2 2 1 [1] :=
      fetchGo_timeout_step r1 1 1 1 0 [] (h1 1)
    have s2 : fetchGo r1 2 2 2 1 [1] = fetchGo r1 3 1 4 2 [1, 2] :=
      fetchGo_timeout_step r1 2 0 2 1 [1] (h1 2)
    have s3 : fetchGo r1 3 1 4 2 [1, 2] = (.error .timeout, 3, [1, 2]) :=
      fetchGo_timeout_last r1 3 4 2 [1, 2] (h1 3)
    exact s1.trans (s2.trans s3)
  · have s1 : fetch_uniprot_json r2 3 = fetchGo r2 2 2 2 1 [1] :=
      fetchGo_timeout_step r2 1 1 1 0 [] h2
    have s2 : fetchGo r2 2 2 2 1 [1] = (.ok (some b), 2, [1]) :=
      fetchGo_success_step r2 2 1 2 1 [1] b h3
    exact s1.trans s2

/-- A service that times out once and then succeeds with an empty object. -/
def timeoutThenOk : Nat → HttpResp := fun i =>
  if i = 1 then .timeout else .success (J.obj [])

/-- Witness for C5 at concrete scripted services. -/
theorem fetch_retry_backoff_witness :
    fetch_uniprot_json alwaysTimeout 3 = (.error .timeout, 3, [1, 2]) ∧
    fetch_uniprot_json timeoutThenOk 3 = (.ok (some (J.obj [])), 2, [1]) :=
  fetch_retry_backoff alwaysTimeout timeoutThenOk (J.obj [])
    (fun _ => rfl) rfl rfl

/-! ## Sequence preview (src/app.py line 279)

The Python line is
`preview = (seq[:300] + "...") if seq and len(seq) > 300 else (seq or "Sequence not available")`
where `seq` is either `None` (field absent) or the sequence string.
Python truthiness makes both `None` and the empty string falsy. -/

/-- Embedding of the preview expression.  `seq` is the value of
`data.get("sequence", {}).get("value")`. -/
def preview (seq : Option String) : String :=
  match seq with
  | none => "Sequence not available"
  | some s =>
    if s.length > 300 then s.take 300 ++ "..."
    else if s.length = 0 then "Sequence not available"
    else s

/-! ### C6 -/

/-- C6 counterexample: the empty sequence string has length at most 300
yet its preview is the "Sequence not available" placeholder, not the
sequence unmodified. -/
theorem preview_empty_not_identity : ¬ preview (some "") = "" := by
  decide

/-- C6 (amended): a nonempty sequence of length at most 300 is previewed
unmodified; a sequence longer than 300 characters is previewed as its
first 300 characters followed by the ellipsis marker; the empty sequence
string (like an absent sequence) is previewed as the placeholder text. -/
theorem preview_spec (s : String) :
    (0 < s.length → s.length ≤ 300 → preview (some s) = s) ∧
    (s.length > 300 → preview (some s) = s.take 300 ++ "...") ∧
    preview (some "") = "Sequence not available" := by
  refine ⟨fun h1 h2 => ?_, fun h3 => ?_, rfl⟩
  · simp only [preview]
    rw [if_neg (by omega), if_neg (by omega)]
  · simp only [preview]
    rw [if_pos h3]

/-- One 301-character sequence. -/
def longSeq : String := String.mk (List.replicate 301 'A')

/-- Witness for the amended C6: a short sequence is kept as is, and the
301-character sequence is cut to 300 characters plus the ellipsis. -/
theorem preview_spec_witness :
    preview (some "MKT") = "MKT" ∧
    preview (some longSeq) = longSeq.take 300 ++ "..." :=
  ⟨(preview_spec "MKT").1 (by decide) (by decide),
   (preview_spec longSeq).2.1 (by decide)⟩

/-! ## String utilities for the BLAST client

Embeddings of the Python string operations used by `run_blast`:
substring containment (`"RID =" in line`), `str.splitlines`,
`str.split("=")` and `str.strip()`. -/

/-- Whether `hay` starts with `needle` (both as character lists). -/
def startsWithL : List Char → List Char → Bool
  | [], _ => true
  | _ :: _, [] => false
  | a :: as, b :: bs => a == b && startsWithL as bs

/-- Whether `needle` occurs as a contiguous substring of `hay`. -/
def containsSub (needle : List Char) : List Char → Bool
  | [] => startsWithL needle []
  | c :: rest => startsWithL needle (c :: rest) || containsSub needle rest

/-- Python `needle in hay` on strings. -/
def strContains (hay needle : String) : Bool := containsSub needle.data hay.data

/-- Python `str.split(sep)` for a one-character separator: split at every
occurrence, keeping empty parts (so the result is never empty). -/
def splitOnChar (sep : Char) : List Char → List (List Char)
  | [] => [[]]
  | c :: cs =>
    if c == sep then [] :: splitOnChar sep cs
    else
      match splitOnChar sep cs with
      | [] => [[c]]
      | p :: ps => (c :: p) :: ps

/-- Python `str.splitlines()`, modelled as splitting on the newline
character. -/
def splitLines (text : String) : List String :=
  (splitOnChar '\n' text.data).map String.mk

/-- Python whitespace test used by `str.strip()`. -/
def isPySpace (c : Char) : Bool :=
  c == ' ' || c == '\t' || c == '\n' || c == '\r' || c == '\x0b' || c == '\x0c'

/-- Python `str.strip()` on a character list. -/
def stripChars (l : List Char) : List Char :=
  ((l.dropWhile isPySpace).reverse.dropWhile isPySpace).reverse

/-- Python `str.strip()`. -/
def strip (s : String) : String := String.mk (stripChars s.data)

/-! ### Split lemmas -/

theorem splitOnChar_ne_nil (sep : Char) (l : List Char) : splitOnChar sep l ≠ [] := by
  cases l with
  | nil => simp [splitOnChar]
  | cons c cs =>
    simp only [splitOnChar]
    by_cases h : c == sep
    · simp [h]
    · simp only [h, Bool.false_eq_true, if_false]
      cases splitOnChar sep cs <;> simp

theorem splitOnChar_head (sep : Char) (l : List Char) :
    (splitOnChar sep l).head? = some (l.takeWhile (fun c => ! (c == sep))) := by
  induction l with
  | nil => simp [splitOnChar]
  | cons c cs ih =>
    simp only [splitOnChar, List.takeWhile]
    by_cases h : c == sep
    · simp [h]
    · simp only [h, Bool.false_eq_true, if_false, Bool.not_false]
      rcases e : splitOnChar sep cs with _ | ⟨p, ps⟩
      · exact absurd e (splitOnChar_ne_nil sep cs)
      · rw [e] at ih
        simp only [List.head?, Option.some.injEq] at ih
        simp [ih]

theorem splitOnChar_getD_one (sep : Char) (l : List Char) (h : sep ∈ l) :
    (splitOnChar sep l).getD 1 [] =
      ((l.dropWhile (fun c => ! (c == sep))).tail).takeWhile (fun c => ! (c == sep)) := by
  induction l with
  | nil => cases h
  | cons c cs ih =>
    by_cases hc : c == sep
    · have e : splitOnChar sep (c :: cs) = [] :: splitOnChar sep cs := by
        simp [splitOnChar, hc]
      rw [e]
      have hd := splitOnChar_head sep cs
      rcases e2 : splitOnChar sep cs with _ | ⟨p, ps⟩
      · exact absurd e2 (splitOnChar_ne_nil sep cs)
      · rw [e2] at hd
        simp only [List.head?, Option.some.injEq] at hd
        simp [List.dropWhile, hc, hd]
    · have hmem : sep ∈ cs := by
        rcases List.mem_cons.mp h with h1 | h1
        · exact absurd (by simp [h1]) hc
        · exact h1
      have e : splitOnChar sep (c :: cs) =
          (c :: ((splitOnChar sep cs).headD [])) :: (splitOnChar sep cs).tail := by
        simp only [splitOnChar, hc, Bool.false_eq_true, if_false]
        rcases e2 : splitOnChar sep cs with _ | ⟨p, ps⟩
        · exact absurd e2 (splitOnChar_ne_nil sep cs)
        · simp
      rw [e]
      have tl : ((c :: ((splitOnChar sep cs).headD [])) :: (splitOnChar sep cs).tail).getD 1 [] =
          (splitOnChar sep cs).getD 1 [] := by
        rcases e2 : splitOnChar sep cs with _ | ⟨p, ps⟩
        · exact absurd e2 (splitOnChar_ne_nil sep cs)
        · simp [List.getD]
      rw [tl, ih hmem]
      simp [List.dropWhile, hc]

/-! ### Substring lemmas -/

theorem mem_of_startsWithL (needle hay : List Char)
    (h : startsWithL needle hay = true) : ∀ c ∈ needle, c ∈ hay := by
  induction needle generalizing hay with
  | nil => intro c hc; cases hc
  | cons a as ih =>
    cases hay with
    | nil => cases h
    | cons b bs =>
      simp only [startsWithL, Bool.and_eq_true, beq_iff_eq] at h
      intro c hc
      rcases List.mem_cons.mp hc with h1 | h1
      · exact List.mem_cons.mpr (Or.inl (h1.trans h.1))
      · exact List.mem_cons.mpr (Or.inr (ih bs h.2 c h1))

theorem mem_of_containsSub (needle hay : List Char)
    (h : containsSub needle hay = true) : ∀ c ∈ needle, c ∈ hay := by
  induction hay with
  | nil =>
    intro c hc
    cases needle with
    | nil => cases hc
    | cons a as => cases h
  | cons b bs ih =>
    simp only [containsSub, Bool.or_eq_true] at h
    intro c hc
    rcases h with h | h
    · exact mem_of_startsWithL needle (b :: bs) h c hc
    · exact List.mem_cons.mpr (Or.inr (ih h c hc))

theorem eq_mem_of_ridLine (l : String) (h : strContains l "RID =" = true) :
    '=' ∈ l.data := by
  have := mem_of_containsSub ("RID =".data) l.data h
  exact this '=' (by decide)

/-! ## Similarity search client (src/app.py lines 95-124, run_blast, and
lines 322-335, the hit extraction at the call site)

The two HTTP endpoints are scripted: the submit response is its text, and
each poll response is a pair of its text (checked for the `Status=...`
markers) and the JSON value `r2.json()` would parse from it.  The poll
loop in the source is unbounded; the embedding consumes the finite script
and reports `pollsExhausted` when the source would keep polling past its
end. -/

/-- Errors raised out of the BLAST pipeline: the two `ValueError`s of
`run_blast`, the end-of-script marker for the unbounded poll loop, and the
Python exceptions arising during hit extraction. -/
inductive AppErr where
  | noRid
  | jobFailed
  | pollsExhausted
  | keyError
  | indexError
  | typeError
deriving DecidableEq, Repr

/-- RID extraction of `run_blast` (lines 108-111): the first line of the
submit response containing "RID =" is split on '=' and component 1 is
stripped; `none` when no line matches (the `ValueError` branch). -/
def extractRid (text : String) : Option String :=
  match (splitLines text).filter (fun s => strContains s "RID =") with
  | [] => none
  | l :: _ => some (String.mk (stripChars ((splitOnChar '=' l.data).getD 1 [])))

/-- Poll loop of `run_blast` (lines 114-122): consume scripted responses,
re-polling while the text contains "Status=WAITING", raising on
"Status=FAILED", and otherwise returning the final response's JSON.  The
second component counts the poll calls made. -/
def pollLoop : List (String × J) → Nat → Except AppErr J × Nat
  | [], n => (.error .pollsExhausted, n)
  | (t, j) :: rest, n =>
    if strContains t "Status=WAITING" then pollLoop rest (n + 1)
    else if strContains t "Status=FAILED" then (.error .jobFailed, n + 1)
    else (.ok j, n + 1)

/-- Embedding of `run_blast(sequence, program, database)`: extract the RID
from the submit response, then poll.  The components of the result are the
final JSON (or error), the number of poll calls, and the RID string that
the poll requests carry (`none` when submission already failed). -/
def run_blast (submitText : String) (polls : List (String × J)) :
    Except AppErr J × Nat × Option String :=
  match extractRid submitText with
  | none => (.error .noRid, 0, none)
  | some rid => ((pollLoop polls 0).1, (pollLoop polls 0).2, some rid)

/-! ### JSON accessors (Python dict/list operations) -/

/-- Lookup in a JSON object's field list (first matching key). -/
def jLookup : List (String × J) → String → Option J
  | [], _ => none
  | (k, v) :: rest, key => if k == key then some v else jLookup rest key

/-- Python `d.get(key, default)`: defaults on a missing key, raises
`AttributeError` (modelled `typeError`) when the receiver is not a dict. -/
def jGetD (j : J) (k : String) (d : J) : Except AppErr J :=
  match j with
  | .obj fs => .ok ((jLookup fs k).getD d)
  | _ => .error .typeError

/-- Python `d[key]`: raises `KeyError` on a missing key and a type fault
when the receiver is not a dict. -/
def jGetK (j : J) (k : String) : Except AppErr J :=
  match j with
  | .obj fs =>
    match jLookup fs k with
    | some v => .ok v
    | none => .error .keyError
  | _ => .error .typeError

/-- Python `l[i]`: raises `IndexError` past the end, `KeyError` when the
receiver is a dict, and a type fault otherwise. -/
def jIdx (j : J) (i : Nat) : Except AppErr J :=
  match j with
  | .arr xs =>
    match xs.get? i with
    | some v => .ok v
    | none => .error .indexError
  | .obj _ => .error .keyError
  | _ => .error .typeError

/-- Python truthiness of a JSON value (`if hits:`). -/
def jTruthy : J → Bool
  | .null => false
  | .bool b => b
  | .num n => ! (n == 0)
  | .str s => ! (s == "")
  | .arr xs => ! xs.isEmpty
  | .obj fs => ! fs.isEmpty

/-- One displayed alignment hit (the dict appended to `table`): accession,
title, top alignment's bit score and e-value, kept as raw JSON values. -/
structure HitRecord where
  accession : J
  title : J
  score : J
  evalue : J

/-- Extraction of one hit (lines 328-331):
`h["description"][0]["accession"]`, `h["description"][0]["title"]`,
`h["hsps"][0]["bit_score"]`, `h["hsps"][0]["evalue"]`. -/
def extractHit (h : J) : Except AppErr HitRecord := do
  let d ← jGetK h "description"
  let d0 ← jIdx d 0
  let acc ← jGetK d0 "accession"
  let title ← jGetK d0 "title"
  let hs ← jGetK h "hsps"
  let hs0 ← jIdx hs 0
  let score ← jGetK hs0 "bit_score"
  let ev ← jGetK hs0 "evalue"
  pure ⟨acc, title, score, ev⟩

/-- The nested hits path (line 324):
`results.get("BlastOutput2", [{}])[0].get("report", {}).get("results", {}).get("search", {}).get("hits", [])`. -/
def extractHitsField (results : J) : Except AppErr J := do
  let b ← jGetD results "BlastOutput2" (J.arr [J.obj []])
  let b0 ← jIdx b 0
  let rep ← jGetD b0 "report" (J.obj [])
  let res ← jGetD rep "results" (J.obj [])
  let se ← jGetD res "search" (J.obj [])
  jGetD se "hits" (J.arr [])

/-- What the BLAST Search page displays after a run: a table of hit
records, the "No hits found." note, or the "BLAST failed" error message
wrapping the raised exception. -/
inductive BlastView where
  | table (rows : List HitRecord)
  | noHits
  | failMsg (e : AppErr)

/-- End-to-end embedding of the Run BLAST action (lines 322-335):
`run_blast` followed by the nested extraction, the `if hits:` truthiness
test, and the per-hit extraction over `hits[:10]`, all under the
catch-all `except` that renders any exception as a failure message.  The
second component is the number of poll calls made. -/
def blast_search (submitText : String) (polls : List (String × J)) : BlastView × Nat :=
  match run_blast submitText polls with
  | (.error e, n, _) => (.failMsg e, n)
  | (.ok json, n, _) =>
    match extractHitsField json with
    | .error e => (.failMsg e, n)
    | .ok hitsJ =>
      if jTruthy hitsJ then
        match hitsJ with
        | .arr hs =>
          match (hs.take 10).mapM extractHit with
          | .ok rows => (.table rows, n)
          | .error e => (.failMsg e, n)
        | _ => (.failMsg .typeError, n)
      else (.noHits, n)

/-! ### Concrete BLAST fixtures -/

/-- A submit response carrying the RID "ABC123". -/
def submitOk : String := "Some header text\nRID = ABC123\nRTOE = 10"

/-- A poll response still in progress. -/
def waitingText : String := "Status=WAITING"

/-- A poll response past the status markers (the final result page). -/
def doneText : String := "ALIGNMENTS READY"

/-- JSON for one hit with the given accession, title, bit score and
e-value, shaped as NCBI reports it. -/
def hitJ (acc title : String) (score ev : Int) : J :=
  J.obj [("description", J.arr [J.obj [("accession", J.str acc), ("title", J.str title)]]),
         ("hsps", J.arr [J.obj [("bit_score", J.num score), ("evalue", J.num ev)]])]

/-- A final BLAST JSON document with two hits. -/
def finalTwoHits : J :=
  J.obj [("BlastOutput2",
    J.arr [J.obj [("report",
      J.obj [("results",
        J.obj [("search",
          J.obj [("hits", J.arr [hitJ "P1" "first hit" 200 0, hitJ "P2" "second hit" 150 1])])])])]])]

/-- The hit record extracted from `hitJ "P1" "first hit" 200 0`. -/
def hitRec1 : HitRecord := ⟨J.str "P1", J.str "first hit", J.num 200, J.num 0⟩

/-- The hit record extracted from `hitJ "P2" "second hit" 150 1`. -/
def hitRec2 : HitRecord := ⟨J.str "P2", J.str "second hit", J.num 150, J.num 1⟩

/-! ### C7 -/

/-- C7: when no line of the submit response contains "RID =", the run
fails with the no-RID error and performs zero poll calls. -/
theorem submit_no_rid (text : String) (polls : List (String × J))
    (h : ∀ l ∈ splitLines text, strContains l "RID =" = false) :
    run_blast text polls = (.error .noRid, 0, none) := by
  have hf : (splitLines text).filter (fun s => strContains s "RID =") = [] :=
    List.filter_eq_nil_iff.mpr (by intro a ha; simp [h a ha])
  simp [run_blast, extractRid, hf]

/-- Witness for C7 at a concrete RID-free submit response. -/
theorem submit_no_rid_witness :
    run_blast "Sorry, no identifier\nsecond line" [(waitingText, J.null)] =
      (.error .noRid, 0, none) :=
  submit_no_rid "Sorry, no identifier\nsecond line" [(waitingText, J.null)] (by decide)

/-! ### C8 -/

/-- C8: one poll step keeps polling on a WAITING status, fails with the
job-failed error on a FAILED status, and finishes with the response's JSON
on any other status; and the end-to-end run with RID "ABC123" and polls
WAITING, WAITING, then a final document with two hits returns exactly
those two hit records in service order after exactly 3 poll calls. -/
theorem poll_loop_spec (t1 t2 t3 : String) (j1 j2 j3 : J)
    (rest : List (String × J)) (n : Nat)
    (hw : strContains t1 "Status=WAITING" = true)
    (hf1 : strContains t2 "Status=WAITING" = false)
    (hf2 : strContains t2 "Status=FAILED" = true)
    (hd1 : strContains t3 "Status=WAITING" = false)
    (hd2 : strContains t3 "Status=FAILED" = false) :
    pollLoop ((t1, j1) :: rest) n = pollLoop rest (n + 1) ∧
    pollLoop ((t2, j2) :: rest) n = (.error .jobFailed, n + 1) ∧
    pollLoop ((t3, j3) :: rest) n = (.ok j3, n + 1) ∧
    blast_search submitOk [(waitingText, J.null), (waitingText, J.null), (doneText, finalTwoHits)] =
      (.table [hitRec1, hitRec2], 3) := by
  refine ⟨by simp [pollLoop, hw], by simp [pollLoop, hf1, hf2],
    by simp [pollLoop, hd1, hd2], ?_⟩
  rfl

/-- Witness for C8 at concrete status texts, including the end-to-end
two-hit scenario. -/
theorem poll_loop_spec_witness :
    pollLoop [(waitingText, J.null)] 0 = pollLoop [] (0 + 1) ∧
    pollLoop [("Status=FAILED", J.null)] 0 = (.error .jobFailed, 0 + 1) ∧
    pollLoop [(doneText, J.num 7)] 0 = (.ok (J.num 7), 0 + 1) ∧
    blast_search submitOk [(waitingText, J.null), (waitingText, J.null), (doneText, finalTwoHits)] =
      (.table [hitRec1, hitRec2], 3) :=
  poll_loop_spec waitingText "Status=FAILED" doneText J.null J.null (J.num 7) [] 0
    rfl rfl rfl rfl rfl

/-! ### C9 -/

/-- C9 behaviour at the divergence: a final JSON object that lacks the
whole BlastOutput2 path is reported as "no hits" without any error (the
chained `.get` defaults swallow the missing fields), and a hit lacking its
`description` field surfaces as the generic `KeyError`-carrying failure
message rather than a parse error. -/
theorem blast_silent_empty_on_missing_path :
    blast_search submitOk [(doneText, J.obj [])] = (.noHits, 1) ∧
    blast_search submitOk
      [(doneText,
        J.obj [("BlastOutput2",
          J.arr [J.obj [("report",
            J.obj [("results",
              J.obj [("search",
                J.obj [("hits", J.arr [J.obj [("hsps", J.arr [])]])])])])]])])] =
      (.failMsg .keyError, 1) :=
  ⟨rfl, rfl⟩

/-! ### C10 -/

/-- Description of RID extraction in the spec's words: the text strictly
between the first '=' of the line and the next '=' (or the end of the
line), trimmed of surrounding whitespace. -/
def ridSpec (l : String) : String :=
  strip (String.mk (((l.data.dropWhile (fun c => ! (c == '='))).tail).takeWhile
    (fun c => ! (c == '='))))

/-- C10: for a submit response whose first "RID ="-line is `l`, the RID
used for polling is exactly the trimmed text strictly between the first
and second '=' of `l`; consequently an identifier containing '=' is cut at
that character, as the concrete line "RID = ABC=123" yielding "ABC"
shows. -/
theorem rid_between_eq_signs (text l : String) (rest : List String)
    (polls : List (String × J))
    (h : (splitLines text).filter (fun s => strContains s "RID =") = l :: rest) :
    extractRid text = some (ridSpec l) ∧
    (run_blast text polls).2.2 = some (ridSpec l) ∧
    ridSpec "RID = ABC=123" = "ABC" := by
  have hl : strContains l "RID =" = true := by
    have hm : l ∈ (splitLines text).filter (fun s => strContains s "RID =") := by
      rw [h]; exact List.mem_cons_self l rest
    exact (List.mem_filter.mp hm).2
  have hmem : '=' ∈ l.data := eq_mem_of_ridLine l hl
  have he : extractRid text = some (ridSpec l) := by
    simp only [extractRid, h]
    rw [splitOnChar_getD_one '=' l.data hmem]
    rfl
  refine ⟨he, ?_, by decide⟩
  simp [run_blast, he]

/-- Witness for C10 at a submit response whose RID line reads
"RID = XY=9". -/
theorem rid_between_eq_signs_witness :
    extractRid "RID = XY=9" = some (ridSpec "RID = XY=9") ∧
    (run_blast "RID = XY=9" []).2.2 = some (ridSpec "RID = XY=9") ∧
    ridSpec "RID = ABC=123" = "ABC" :=
  rid_between_eq_signs "RID = XY=9" "RID = XY=9" [] [] (by decide)

end BioAI
